import Mathlib

/-!
Shallow embedding of the Open-Meteo weather dashboard (src/app.py).

JSON payloads are modelled as typed structures with `Option` fields for
keys that may be absent; numbers carried by the payload are modelled as
rationals, timestamps as integers.  A pandas `DataFrame` built from the
parallel arrays of a payload block is modelled as `Option (List Row)`:
`none` models the `ValueError` pandas raises when the arrays (or the
index) have unequal lengths, `some rows` the successfully built frame.
The Streamlit script `main` is modelled as a pure function from an
environment (widget inputs, HTTP responses) to the ordered trace of
user-visible events and network calls it produces.
-/

/-- One geocoding hit (an element of the geocoding response's `results`). -/
structure GeocodeResult where
  name : String
  admin1 : Option String
  country : String
  latitude : Rat
  longitude : Rat
deriving DecidableEq, Repr

/-- Body of a successful geocoding HTTP response: `data.get("results")`. -/
structure GeoBody where
  results : Option (List GeocodeResult)
deriving DecidableEq, Repr

/-- The `current_weather` block of a forecast payload. -/
structure CurrentWeather where
  temperature : Rat
  windspeed : Rat
  weathercode : Int
  time : String
deriving DecidableEq, Repr

/-- The `hourly` block: parallel arrays keyed by name, each possibly absent. -/
structure HourlyBlock where
  time : Option (List Int)
  temperature_2m : Option (List Rat)
  apparent_temperature : Option (List Rat)
  precipitation : Option (List Rat)
  weathercode : Option (List Int)
deriving DecidableEq, Repr

/-- The `daily` block: parallel arrays keyed by name, each possibly absent. -/
structure DailyBlock where
  time : Option (List Int)
  temperature_2m_max : Option (List Rat)
  temperature_2m_min : Option (List Rat)
  weathercode : Option (List Int)
deriving DecidableEq, Repr

/-- A forecast payload (`resp.json()` of the forecast endpoint). -/
structure Payload where
  current_weather : Option CurrentWeather
  hourly : Option HourlyBlock
  daily : Option DailyBlock
deriving DecidableEq, Repr

/-- `not hourly` on the dict: true when the block dict is empty. -/
def HourlyBlock.isEmptyDict (h : HourlyBlock) : Bool :=
  h.time.isNone && h.temperature_2m.isNone && h.apparent_temperature.isNone
    && h.precipitation.isNone && h.weathercode.isNone

/-- `not daily` on the dict: true when the block dict is empty. -/
def DailyBlock.isEmptyDict (d : DailyBlock) : Bool :=
  d.time.isNone && d.temperature_2m_max.isNone && d.temperature_2m_min.isNone
    && d.weathercode.isNone

/-- WEATHER_CODE_MAP from app.py: code ↦ (description, emoji). -/
def WEATHER_CODE_MAP : List (Int × String × String) :=
  [(0, "Clear sky", "☀️"),
   (1, "Mainly clear", "🌤️"),
   (2, "Partly cloudy", "⛅"),
   (3, "Overcast", "☁️"),
   (45, "Fog", "🌫️"),
   (48, "Depositing rime fog", "🌫️"),
   (51, "Light drizzle", "🌦️"),
   (53, "Moderate drizzle", "🌧️"),
   (55, "Dense drizzle", "🌧️"),
   (56, "Light freezing drizzle", "🌧️❄️"),
   (57, "Dense freezing drizzle", "🌧️❄️"),
   (61, "Slight rain", "🌧️"),
   (63, "Moderate rain", "🌧️"),
   (65, "Heavy rain", "⛈️"),
   (66, "Light freezing rain", "🌧️❄️"),
   (67, "Heavy freezing rain", "🌧️❄️"),
   (71, "Slight snow fall", "❄️"),
   (73, "Moderate snow fall", "❄️"),
   (75, "Heavy snow fall", "❄️"),
   (77, "Snow grains", "❄️"),
   (80, "Slight rain showers", "🌦️"),
   (81, "Moderate rain showers", "🌧️"),
   (82, "Violent rain showers", "⛈️"),
   (85, "Slight snow showers", "🌨️"),
   (86, "Heavy snow showers", "🌨️"),
   (95, "Thunderstorm", "⛈️⚡"),
   (96, "Thunderstorm with slight hail", "⛈️⚡"),
   (99, "Thunderstorm with heavy hail", "⛈️⚡")]

/-- Dict lookup `WEATHER_CODE_MAP.get(code, default)` (keys are distinct). -/
def wcm_lookup (code : Int) : Option (String × String) :=
  (WEATHER_CODE_MAP.find? (fun e => e.1 == code)).map (fun e => e.2)

/-- `code_to_desc` from app.py. -/
def code_to_desc (code : Int) : String :=
  ((wcm_lookup code).getD ("Unknown", "❓")).1

/-- `code_to_emoji` from app.py. -/
def code_to_emoji (code : Int) : String :=
  ((wcm_lookup code).getD ("Unknown", "❓")).2

/-- A row of the hourly DataFrame (datetime index plus four columns). -/
structure HourlyRow where
  datetime : Int
  temperature_2m : Rat
  apparent_temperature : Rat
  precipitation : Rat
  weathercode : Int
deriving DecidableEq, Repr

/-- A row of the daily DataFrame (date index plus three columns). -/
structure DailyRow where
  date : Int
  temp_max : Rat
  temp_min : Rat
  weathercode : Int
deriving DecidableEq, Repr

/-- Zip the five equal-length parallel arrays into DataFrame rows. -/
def mkHourlyRows : List Int → List Rat → List Rat → List Rat → List Int → List HourlyRow
  | t :: ts, x :: xs, y :: ys, z :: zs, w :: ws =>
      { datetime := t, temperature_2m := x, apparent_temperature := y,
        precipitation := z, weathercode := w } :: mkHourlyRows ts xs ys zs ws
  | _, _, _, _, _ => []

/-- Zip the four equal-length parallel arrays into daily DataFrame rows. -/
def mkDailyRows : List Int → List Rat → List Rat → List Int → List DailyRow
  | t :: ts, x :: xs, y :: ys, w :: ws =>
      { date := t, temp_max := x, temp_min := y, weathercode := w } :: mkDailyRows ts xs ys ws
  | _, _, _, _ => []

/-- The pandas precondition for `hourly_to_df`: every column array has the
same length as the index array (otherwise `pd.DataFrame` raises). -/
def hourlyLengthsOk (h : HourlyBlock) : Bool :=
  ((h.temperature_2m.getD []).length == (h.time.getD []).length)
    && ((h.apparent_temperature.getD []).length == (h.time.getD []).length)
    && ((h.precipitation.getD []).length == (h.time.getD []).length)
    && ((h.weathercode.getD []).length == (h.time.getD []).length)

/-- The pandas precondition for `daily_to_df`. -/
def dailyLengthsOk (d : DailyBlock) : Bool :=
  ((d.temperature_2m_max.getD []).length == (d.time.getD []).length)
    && ((d.temperature_2m_min.getD []).length == (d.time.getD []).length)
    && ((d.weathercode.getD []).length == (d.time.getD []).length)

/-- `hourly_to_df` from app.py.  `none` models the pandas `ValueError`
raised when the parallel arrays have unequal lengths. -/
def hourly_to_df (payload : Payload) : Option (List HourlyRow) :=
  match payload.hourly with
  | none => some []
  | some h =>
    if h.isEmptyDict then some []
    else if hourlyLengthsOk h then
      some (mkHourlyRows (h.time.getD []) (h.temperature_2m.getD [])
        (h.apparent_temperature.getD []) (h.precipitation.getD []) (h.weathercode.getD []))
    else none

/-- `daily_to_df` from app.py. -/
def daily_to_df (payload : Payload) : Option (List DailyRow) :=
  match payload.daily with
  | none => some []
  | some d =>
    if d.isEmptyDict then some []
    else if dailyLengthsOk d then
      some (mkDailyRows (d.time.getD []) (d.temperature_2m_max.getD [])
        (d.temperature_2m_min.getD []) (d.weathercode.getD []))
    else none

/-- `geocode_city` applied to a successful response body: `if not results:
return None; return results`. -/
def geocode_city_result (body : GeoBody) : Option (List GeocodeResult) :=
  match body.results with
  | none => none
  | some rs => if rs.isEmpty then none else some rs

/-- The query parameters of the forecast request built by `fetch_weather`. -/
structure ForecastParams where
  latitude : Rat
  longitude : Rat
  current_weather : Bool
  hourly : String
  daily : String
  timezone : String
deriving DecidableEq, Repr

/-- `fetch_weather`'s request construction (app.py lines 79-88): the
params dict never mentions the `units` argument. -/
def fetch_weather_params (lat lon : Rat) (timezone : String) (units : String) : ForecastParams :=
  { latitude := lat
    longitude := lon
    current_weather := true
    hourly := "temperature_2m,apparent_temperature,precipitation,weathercode"
    daily := "temperature_2m_max,temperature_2m_min,weathercode"
    timezone := timezone }

/-- Round a rational to the nearest integer, ties to even (the rounding
used by Python's fixed-point float formatting). -/
def roundHalfEven (q : Rat) : Int :=
  if q - ⌊q⌋ < 1/2 then ⌊q⌋
  else if q - ⌊q⌋ > 1/2 then ⌊q⌋ + 1
  else if ⌊q⌋ % 2 = 0 then ⌊q⌋ else ⌊q⌋ + 1

/-- Python `format(q, ".Nf")`: fixed-point with `digits` fractional digits. -/
def formatFixed (digits : Nat) (q : Rat) : String :=
  let mag : Nat := (roundHalfEven (|q| * ((10 : Rat) ^ digits))).toNat
  let ip : Nat := mag / 10 ^ digits
  let fp : Nat := mag % 10 ^ digits
  let fpStr : String := toString fp
  let fpPad : String := String.mk (List.replicate (digits - fpStr.length) '0') ++ fpStr
  (if q < 0 then "-" else "") ++ toString ip
    ++ (if digits = 0 then "" else "." ++ fpPad)

/-- The label built for each match in the disambiguation selectbox
(app.py line 248). -/
def build_option_label (m : GeocodeResult) : String :=
  m.name ++ ", " ++ m.admin1.getD "" ++ " " ++ m.country ++ " ("
    ++ formatFixed 3 m.latitude ++ "," ++ formatFixed 3 m.longitude ++ ")"

/-- Python `list.index`: index of the first occurrence, `none` when absent
(models the `ValueError`). -/
def list_index (options : List String) (choice : String) : Option Nat :=
  match options with
  | [] => none
  | o :: os => if o = choice then some 0 else (list_index os choice).map (· + 1)

/-- One user-visible event or network call emitted by the script, in
emission order. -/
inductive Ev where
  | title (s : String)
  | sidebarMarkdown (s : String)
  | sidebarWarning (s : String)
  | markdown (s : String)
  | info (s : String)
  | error (s : String)
  | warning (s : String)
  | selectbox (label : String) (options : List String)
  | callGeocode (city : String)
  | callFetch (params : ForecastParams)
  | write (s : String)
  | currentCard (emoji : String) (place : String) (temp wind : Rat)
      (desc : String) (time : String) (code : Int)
  | chart (points : List (Int × Rat × Rat))
  | mapView (lat lon : Rat)
  | table (rows : List (String × String × Rat × Rat))
  | rawJson (p : Payload)
  | crash
deriving DecidableEq, Repr

/-- Is this event the forecast HTTP request? -/
def Ev.isFetchCall : Ev → Bool
  | .callFetch _ => true
  | _ => false

/-- Is this event the geocoding HTTP request? -/
def Ev.isGeocodeCall : Ev → Bool
  | .callGeocode _ => true
  | _ => false

/-- Is this event any network request? -/
def Ev.isNetworkCall (e : Ev) : Bool :=
  e.isFetchCall || e.isGeocodeCall

/-- Is this event part of the rendered weather report (selected-place
line, coordinates, card, chart, map, table, raw JSON)? -/
def Ev.isReportContent : Ev → Bool
  | .write _ => true
  | .currentCard _ _ _ _ _ _ _ => true
  | .chart _ => true
  | .mapView _ _ => true
  | .table _ => true
  | .rawJson _ => true
  | _ => false

/-- No forecast request occurs in the trace. -/
def noFetchCalls (t : List Ev) : Bool :=
  t.all (fun e => ! e.isFetchCall)

/-- No network request at all occurs in the trace. -/
def noNetworkCalls (t : List Ev) : Bool :=
  t.all (fun e => ! e.isNetworkCall)

/-- No report content occurs in the trace. -/
def noReportContent (t : List Ev) : Bool :=
  t.all (fun e => ! e.isReportContent)

/-- `render_current_card` from app.py. -/
def render_current_card (payload : Payload) (place_name : String) : List Ev :=
  match payload.current_weather with
  | none => [Ev.info "No current weather found for this location."]
  | some cw =>
      [Ev.currentCard (code_to_emoji cw.weathercode) place_name cw.temperature
        cw.windspeed (code_to_desc cw.weathercode) cw.time cw.weathercode]

/-- The filtered window plotted by `draw_24h_chart`:
`hourly_df[hourly_df.index >= now].head(24)`. -/
def next24 (hourly_df : List HourlyRow) (now : Int) : List HourlyRow :=
  (hourly_df.filter (fun r => decide (now ≤ r.datetime))).take 24

/-- The columns the chart actually plots: datetime, temperature,
apparent temperature. -/
def chartData (rows : List HourlyRow) : List (Int × Rat × Rat) :=
  rows.map (fun r => (r.datetime, r.temperature_2m, r.apparent_temperature))

/-- `draw_24h_chart` from app.py. -/
def draw_24h_chart (hourly_df : List HourlyRow) (now : Int) : List Ev :=
  if hourly_df.isEmpty then [Ev.info "No hourly data available."]
  else if (next24 hourly_df now).isEmpty then [Ev.info "No next-24-hour data available."]
  else [Ev.chart (chartData (next24 hourly_df now))]

/-- `show_daily_summary` from app.py: first 7 rows, date as plain string,
weathercode mapped to emoji. -/
def show_daily_summary (daily_df : List DailyRow) : List Ev :=
  if daily_df.isEmpty then [Ev.info "No daily data available."]
  else
    [Ev.table ((daily_df.take 7).map
      (fun r => (toString r.date, code_to_emoji r.weathercode, r.temp_max, r.temp_min)))]

/-- Python `str.strip()`: drop leading and trailing whitespace.  Defined
by structural recursion so that it evaluates inside the kernel (the
library `String.trim` is defined by well-founded recursion). -/
def stripWS (s : String) : String :=
  String.mk (((s.data.dropWhile Char.isWhitespace).reverse.dropWhile Char.isWhitespace).reverse)

/-- All inputs the script run depends on: widget values and the responses
the two HTTP endpoints would return. -/
structure Env where
  app_password : String
  pw : String
  submit : Bool
  city : String
  units : String
  tz_choice : String
  choice : String
  geocodeResponse : Except String GeoBody
  fetchResponse : Except String Payload
  now : Int

/-- Match selection (app.py lines 247-253): with more than one match,
render the selectbox and take the match at the index of the chosen label;
otherwise take the single match.  `none` in the second component models
the `ValueError` of `options.index` on an absent label. -/
def pick_match (ms : List GeocodeResult) (choice : String) :
    List Ev × Option GeocodeResult :=
  if 1 < ms.length then
    ([Ev.selectbox "Multiple matches found — choose one" (ms.map build_option_label)],
      match list_index (ms.map build_option_label) choice with
      | some idx => ms[idx]?
      | none => none)
  else ([], ms.head?)

/-- The script from the selected place onwards (app.py lines 255-290). -/
def main_with_place (env : Env) (place : GeocodeResult) : List Ev :=
  let admin1 := place.admin1.getD ""
  let place_label := place.name ++ (if admin1 = "" then "" else ", " ++ admin1)
    ++ ", " ++ place.country
  [Ev.markdown ("**Selected:** " ++ place_label),
   Ev.write ("Coordinates: " ++ formatFixed 4 place.latitude ++ ", "
     ++ formatFixed 4 place.longitude)]
  ++ (let timezone := if stripWS env.tz_choice = "" then "UTC" else stripWS env.tz_choice
      Ev.callFetch (fetch_weather_params place.latitude place.longitude timezone env.units)
        :: match env.fetchResponse with
           | .error e => [Ev.error ("Weather fetch failed: " ++ e)]
           | .ok payload =>
               render_current_card payload place_label
               ++ [Ev.markdown "### Next 24 hours"]
               ++ (match hourly_to_df payload with
                   | none => [Ev.crash]
                   | some hdf => draw_24h_chart hdf env.now)
               ++ [Ev.mapView place.latitude place.longitude,
                   Ev.markdown "### 7-day summary"]
               ++ (match daily_to_df payload with
                   | none => [Ev.crash]
                   | some ddf => show_daily_summary ddf)
               ++ [Ev.rawJson payload])

/-- The script from the geocoding call onwards (app.py lines 234-253). -/
def main_geocode (env : Env) : List Ev :=
  Ev.callGeocode env.city
    :: match env.geocodeResponse with
       | .error e => [Ev.error ("Geocoding failed: " ++ e)]
       | .ok body =>
           match geocode_city_result body with
           | none =>
               [Ev.warning "Location not found. Try adding country or state (e.g., 'Springfield, IL')."]
           | some ms =>
               let sel := pick_match ms env.choice
               sel.1 ++ match sel.2 with
                        | none => [Ev.crash]
                        | some place => main_with_place env place

/-- The script after the password gate (app.py lines 219-290). -/
def main_after_gate (env : Env) : List Ev :=
  Ev.markdown "Enter a city name (e.g., `London, UK`). Open-Meteo is free — no API key needed."
    :: if env.submit = false then
         [Ev.info "Type a city and click 'Get Weather' to fetch data."]
       else if stripWS env.city = "" then
         [Ev.error "Please enter a city name."]
       else main_geocode env

/-- `main` from app.py as a trace function (named `app_main` because
`main` is reserved for an executable entry point). -/
def app_main (env : Env) : List Ev :=
  Ev.title "🌤️ Weather Report"
    :: if env.app_password ≠ "" then
         Ev.sidebarMarkdown "App access protected"
           :: (if env.pw ≠ env.app_password then
                 [Ev.sidebarWarning "Enter password to continue"]
               else main_after_gate env)
       else main_after_gate env

/-- The password gate lets the run proceed: no password configured, or
the entered passphrase matches. -/
def gate_ok (env : Env) : Prop :=
  env.app_password = "" ∨ env.pw = env.app_password

/-- The selected place exists and belongs to the candidate list. -/
def selectedIn (o : Option GeocodeResult) (ms : List GeocodeResult) : Prop :=
  match o with
  | none => False
  | some m => m ∈ ms

/-- Every row's timestamp is at or after `now`. -/
def allAtOrAfter (now : Int) (rows : List HourlyRow) : Bool :=
  rows.all (fun r => decide (now ≤ r.datetime))

/-- Zipping five equal-length arrays gives rows whose column projections
are exactly the input arrays. -/
theorem mkHourlyRows_spec :
    ∀ (ts : List Int) (xs ys zs : List Rat) (ws : List Int),
      xs.length = ts.length → ys.length = ts.length → zs.length = ts.length →
      ws.length = ts.length →
      (mkHourlyRows ts xs ys zs ws).map HourlyRow.datetime = ts ∧
      (mkHourlyRows ts xs ys zs ws).map HourlyRow.temperature_2m = xs ∧
      (mkHourlyRows ts xs ys zs ws).map HourlyRow.apparent_temperature = ys ∧
      (mkHourlyRows ts xs ys zs ws).map HourlyRow.precipitation = zs ∧
      (mkHourlyRows ts xs ys zs ws).map HourlyRow.weathercode = ws := by
  intro ts
  induction ts with
  | nil =>
      intro xs ys zs ws h1 h2 h3 h4
      rw [List.length_nil, List.length_eq_zero] at h1 h2 h3 h4
      subst h1; subst h2; subst h3; subst h4
      simp [mkHourlyRows]
  | cons t ts ih =>
      intro xs ys zs ws h1 h2 h3 h4
      cases xs with
      | nil => simp at h1
      | cons x xs =>
        cases ys with
        | nil => simp at h2
        | cons y ys =>
          cases zs with
          | nil => simp at h3
          | cons z zs =>
            cases ws with
            | nil => simp at h4
            | cons w ws =>
              simp only [List.length_cons, Nat.add_right_cancel_iff] at h1 h2 h3 h4
              obtain ⟨m1, m2, m3, m4, m5⟩ := ih xs ys zs ws h1 h2 h3 h4
              simp [mkHourlyRows, m1, m2, m3, m4, m5]

/-- Zipping four equal-length arrays gives rows whose column projections
are exactly the input arrays. -/
theorem mkDailyRows_spec :
    ∀ (ts : List Int) (xs ys : List Rat) (ws : List Int),
      xs.length = ts.length → ys.length = ts.length → ws.length = ts.length →
      (mkDailyRows ts xs ys ws).map DailyRow.date = ts ∧
      (mkDailyRows ts xs ys ws).map DailyRow.temp_max = xs ∧
      (mkDailyRows ts xs ys ws).map DailyRow.temp_min = ys ∧
      (mkDailyRows ts xs ys ws).map DailyRow.weathercode = ws := by
  intro ts
  induction ts with
  | nil =>
      intro xs ys ws h1 h2 h3
      rw [List.length_nil, List.length_eq_zero] at h1 h2 h3
      subst h1; subst h2; subst h3
      simp [mkDailyRows]
  | cons t ts ih =>
      intro xs ys ws h1 h2 h3
      cases xs with
      | nil => simp at h1
      | cons x xs =>
        cases ys with
        | nil => simp at h2
        | cons y ys =>
          cases ws with
          | nil => simp at h3
          | cons w ws =>
            simp only [List.length_cons, Nat.add_right_cancel_iff] at h1 h2 h3
            obtain ⟨m1, m2, m3, m4⟩ := ih xs ys ws h1 h2 h3
            simp [mkDailyRows, m1, m2, m3, m4]

/-- `list_index` over the labels of a match list finds an index holding a
match whose label is the searched one. -/
theorem list_index_spec :
    ∀ (ms : List GeocodeResult) (choice : String),
      choice ∈ ms.map build_option_label →
      ∃ i m, list_index (ms.map build_option_label) choice = some i ∧
        ms[i]? = some m ∧ build_option_label m = choice ∧ m ∈ ms := by
  intro ms
  induction ms with
  | nil => intro choice h; simp at h
  | cons a as ih =>
      intro choice h
      by_cases hc : build_option_label a = choice
      · exact ⟨0, a, by simp [list_index, hc], by simp, hc, List.mem_cons_self a as⟩
      · have hmem : choice ∈ as.map build_option_label := by
          rcases List.mem_map.mp h with ⟨b, hb, hlab⟩
          rcases List.mem_cons.mp hb with rfl | hb
          · exact absurd hlab hc
          · exact List.mem_map.mpr ⟨b, hb, hlab⟩
        obtain ⟨i, m, hfind, hget, hlab, hm⟩ := ih choice hmem
        refine ⟨i + 1, m, ?_, ?_, hlab, List.mem_cons_of_mem a hm⟩
        · simp [list_index, hc, hfind]
        · simpa using hget

/-- Claim C2: for every pair of units values and all fixed coordinates and
timezone, `fetch_weather` builds an identical forecast request — the
query-parameter set does not depend on the units argument — and the whole
script trace is unchanged by the units selection. -/
theorem fetch_request_independent_of_units :
    ∀ (lat lon : Rat) (tz u1 u2 : String) (env : Env),
      fetch_weather_params lat lon tz u1 = fetch_weather_params lat lon tz u2 ∧
      app_main { env with units := u1 } = app_main { env with units := u2 } := by
  intro lat lon tz u1 u2 env
  exact ⟨rfl, rfl⟩

/-- Claim C3: condition codes outside the enumerated map fall back to
"Unknown" and "❓"; codes in the map yield their associated description
and glyph. -/
theorem weather_code_lookup_total :
    ∀ (code : Int),
      ((∀ e ∈ WEATHER_CODE_MAP, e.1 ≠ code) →
        code_to_desc code = "Unknown" ∧ code_to_emoji code = "❓") ∧
      (∀ d g, (code, d, g) ∈ WEATHER_CODE_MAP →
        code_to_desc code = d ∧ code_to_emoji code = g) := by
  intro code
  constructor
  · intro hall
    have hf : WEATHER_CODE_MAP.find? (fun e => e.1 == code) = none := by
      apply List.find?_eq_none.mpr
      intro e he
      simpa using hall e he
    constructor
    · simp [code_to_desc, wcm_lookup, hf]
    · simp [code_to_emoji, wcm_lookup, hf]
  · intro d g hmem
    have hall : WEATHER_CODE_MAP.all
        (fun e => (code_to_desc e.1 == e.2.1) && (code_to_emoji e.1 == e.2.2)) = true := by
      decide
    have h := List.all_eq_true.mp hall (code, d, g) hmem
    simp only [Bool.and_eq_true, beq_iff_eq] at h
    exact h

/-- Witness for C3 at code 1000 (not in the map) and code 0 (in the map). -/
theorem weather_code_lookup_total_witness :
    (code_to_desc 1000 = "Unknown" ∧ code_to_emoji 1000 = "❓") ∧
    (code_to_desc 0 = "Clear sky" ∧ code_to_emoji 0 = "☀️") :=
  ⟨(weather_code_lookup_total 1000).1 (by decide),
   (weather_code_lookup_total 0).2 "Clear sky" "☀️" (by decide)⟩

/-- Claim C5: a payload whose hourly (resp. daily) block is missing or an
empty dict normalizes to an empty series, with no error. -/
theorem empty_blocks_give_empty_series :
    ∀ (p : Payload),
      (p.hourly = none → hourly_to_df p = some []) ∧
      (∀ h, p.hourly = some h → h.isEmptyDict = true → hourly_to_df p = some []) ∧
      (p.daily = none → daily_to_df p = some []) ∧
      (∀ d, p.daily = some d → d.isEmptyDict = true → daily_to_df p = some []) := by
  intro p
  refine ⟨?_, ?_, ?_, ?_⟩
  · intro hp; simp [hourly_to_df, hp]
  · intro h hp hE; simp [hourly_to_df, hp, hE]
  · intro hp; simp [daily_to_df, hp]
  · intro d hp hE; simp [daily_to_df, hp, hE]

/-- A payload with no hourly and no daily key. -/
def payloadNoBlocks : Payload :=
  { current_weather := none, hourly := none, daily := none }

/-- A payload whose hourly and daily blocks are empty dicts. -/
def payloadEmptyBlocks : Payload :=
  { current_weather := none,
    hourly := some { time := none, temperature_2m := none, apparent_temperature := none,
                     precipitation := none, weathercode := none },
    daily := some { time := none, temperature_2m_max := none, temperature_2m_min := none,
                    weathercode := none } }

/-- Witness for C5 on concrete payloads with missing and with empty blocks. -/
theorem empty_blocks_give_empty_series_witness :
    hourly_to_df payloadNoBlocks = some [] ∧
    daily_to_df payloadNoBlocks = some [] ∧
    hourly_to_df payloadEmptyBlocks = some [] ∧
    daily_to_df payloadEmptyBlocks = some [] :=
  ⟨(empty_blocks_give_empty_series payloadNoBlocks).1 rfl,
   (empty_blocks_give_empty_series payloadNoBlocks).2.2.1 rfl,
   (empty_blocks_give_empty_series payloadEmptyBlocks).2.1 _ rfl rfl,
   (empty_blocks_give_empty_series payloadEmptyBlocks).2.2.2 _ rfl rfl⟩

/-- Claim C10: `geocode_city` maps an absent or empty results field to
`None` and never returns an empty list. -/
theorem geocode_never_empty_list :
    ∀ (body : GeoBody),
      (body.results = none → geocode_city_result body = none) ∧
      (body.results = some [] → geocode_city_result body = none) ∧
      (∀ l, geocode_city_result body = some l → l ≠ []) := by
  intro body
  refine ⟨?_, ?_, ?_⟩
  · intro h; simp [geocode_city_result, h]
  · intro h; simp [geocode_city_result, h]
  · intro l hl
    cases hr : body.results with
    | none => simp [geocode_city_result, hr] at hl
    | some rs =>
        cases he : rs.isEmpty with
        | true => simp [geocode_city_result, hr, he] at hl
        | false =>
            simp [geocode_city_result, hr, he] at hl
            subst hl
            intro hnil
            subst hnil
            simp at he

/-- A sample single geocoding hit. -/
def sampleHit : GeocodeResult :=
  { name := "London", admin1 := some "England", country := "United Kingdom",
    latitude := 515074 / 10000, longitude := -1278 / 10000 }

/-- Witness for C10: a one-hit body maps to a non-empty list. -/
theorem geocode_never_empty_list_witness :
    geocode_city_result { results := some [sampleHit] } = some [sampleHit] ∧
    ([sampleHit] : List GeocodeResult) ≠ [] :=
  ⟨by simp [geocode_city_result],
   (geocode_never_empty_list { results := some [sampleHit] }).2.2 [sampleHit]
     (by simp [geocode_city_result])⟩

/-- Hourly block with 10 timestamps but only 8 values in each column
(the spec's example of mismatched parallel arrays). -/
def mismatchHourly : HourlyBlock :=
  { time := some [0, 1, 2, 3, 4, 5, 6, 7, 8, 9],
    temperature_2m := some [10, 11, 12, 13, 14, 15, 16, 17],
    apparent_temperature := some [9, 10, 11, 12, 13, 14, 15, 16],
    precipitation := some [0, 0, 0, 0, 0, 0, 0, 0],
    weathercode := some [0, 0, 0, 0, 0, 0, 0, 0] }

/-- Daily block with 3 dates but only 2 values in each column. -/
def mismatchDaily : DailyBlock :=
  { time := some [0, 1, 2],
    temperature_2m_max := some [20, 21],
    temperature_2m_min := some [10, 11],
    weathercode := some [0, 0] }

/-- Payload whose hourly and daily parallel arrays have unequal lengths. -/
def mismatchPayload : Payload :=
  { current_weather := none, hourly := some mismatchHourly, daily := some mismatchDaily }

/-- Claim C1 counterexample: on a payload whose hourly block has 10
timestamps and 8 temperatures (shortest array length 8), the normalizer
does not return a series of 8 aligned rows — `pd.DataFrame` raises, which
the embedding records as `none`; likewise for the daily block. -/
theorem normalizer_mismatch_counterexample :
    hourly_to_df mismatchPayload = none ∧ daily_to_df mismatchPayload = none := by
  exact ⟨by decide, by decide⟩

/-- Claim C1 (amended): when the parallel arrays of a present, non-empty
hourly (resp. daily) block all have equal length, the normalizer returns
a series of exactly that length, with the rows aligned positionally with
the arrays; when the lengths differ, it fails (pandas `ValueError`,
modelled as `none`) instead of truncating. -/
theorem normalizer_lengths :
    ∀ (p : Payload) (h : HourlyBlock) (d : DailyBlock),
      (p.hourly = some h → h.isEmptyDict = false →
        (hourlyLengthsOk h = true →
          Option.map (List.map HourlyRow.datetime) (hourly_to_df p) = some (h.time.getD []) ∧
          Option.map (List.map HourlyRow.temperature_2m) (hourly_to_df p)
            = some (h.temperature_2m.getD []) ∧
          Option.map (List.map HourlyRow.apparent_temperature) (hourly_to_df p)
            = some (h.apparent_temperature.getD []) ∧
          Option.map (List.map HourlyRow.precipitation) (hourly_to_df p)
            = some (h.precipitation.getD []) ∧
          Option.map (List.map HourlyRow.weathercode) (hourly_to_df p)
            = some (h.weathercode.getD []) ∧
          Option.map List.length (hourly_to_df p) = some (h.time.getD []).length) ∧
        (hourlyLengthsOk h = false → hourly_to_df p = none)) ∧
      (p.daily = some d → d.isEmptyDict = false →
        (dailyLengthsOk d = true →
          Option.map (List.map DailyRow.date) (daily_to_df p) = some (d.time.getD []) ∧
          Option.map (List.map DailyRow.temp_max) (daily_to_df p)
            = some (d.temperature_2m_max.getD []) ∧
          Option.map (List.map DailyRow.temp_min) (daily_to_df p)
            = some (d.temperature_2m_min.getD []) ∧
          Option.map (List.map DailyRow.weathercode) (daily_to_df p)
            = some (d.weathercode.getD []) ∧
          Option.map List.length (daily_to_df p) = some (d.time.getD []).length) ∧
        (dailyLengthsOk d = false → daily_to_df p = none)) := by
  intro p h d
  constructor
  · intro hp hE
    constructor
    · intro hOk
      have hdf : hourly_to_df p = some (mkHourlyRows (h.time.getD [])
          (h.temperature_2m.getD []) (h.apparent_temperature.getD [])
          (h.precipitation.getD []) (h.weathercode.getD [])) := by
        simp [hourly_to_df, hp, hE, hOk]
      have hlen := hOk
      simp only [hourlyLengthsOk, Bool.and_eq_true, beq_iff_eq] at hlen
      obtain ⟨⟨⟨e1, e2⟩, e3⟩, e4⟩ := hlen
      obtain ⟨m1, m2, m3, m4, m5⟩ := mkHourlyRows_spec (h.time.getD [])
        (h.temperature_2m.getD []) (h.apparent_temperature.getD [])
        (h.precipitation.getD []) (h.weathercode.getD []) e1 e2 e3 e4
      refine ⟨?_, ?_, ?_, ?_, ?_, ?_⟩
      · rw [hdf]; simp [m1]
      · rw [hdf]; simp [m2]
      · rw [hdf]; simp [m3]
      · rw [hdf]; simp [m4]
      · rw [hdf]; simp [m5]
      · rw [hdf]
        have hln : (mkHourlyRows (h.time.getD []) (h.temperature_2m.getD [])
            (h.apparent_temperature.getD []) (h.precipitation.getD [])
            (h.weathercode.getD [])).length = (h.time.getD []).length := by
          conv_rhs => rw [← m1]
          simp
        simp [hln]
    · intro hBad
      simp [hourly_to_df, hp, hE, hBad]
  · intro hp hE
    constructor
    · intro hOk
      have hdf : daily_to_df p = some (mkDailyRows (d.time.getD [])
          (d.temperature_2m_max.getD []) (d.temperature_2m_min.getD [])
          (d.weathercode.getD [])) := by
        simp [daily_to_df, hp, hE, hOk]
      have hlen := hOk
      simp only [dailyLengthsOk, Bool.and_eq_true, beq_iff_eq] at hlen
      obtain ⟨⟨e1, e2⟩, e3⟩ := hlen
      obtain ⟨m1, m2, m3, m4⟩ := mkDailyRows_spec (d.time.getD [])
        (d.temperature_2m_max.getD []) (d.temperature_2m_min.getD [])
        (d.weathercode.getD []) e1 e2 e3
      refine ⟨?_, ?_, ?_, ?_, ?_⟩
      · rw [hdf]; simp [m1]
      · rw [hdf]; simp [m2]
      · rw [hdf]; simp [m3]
      · rw [hdf]; simp [m4]
      · rw [hdf]
        have hln : (mkDailyRows (d.time.getD []) (d.temperature_2m_max.getD [])
            (d.temperature_2m_min.getD []) (d.weathercode.getD [])).length
            = (d.time.getD []).length := by
          conv_rhs => rw [← m1]
          simp
        simp [hln]
    · intro hBad
      simp [daily_to_df, hp, hE, hBad]

/-- Hourly block whose five parallel arrays all have length 2. -/
def okHourly : HourlyBlock :=
  { time := some [0, 1], temperature_2m := some [10, 11],
    apparent_temperature := some [9, 10], precipitation := some [0, 0],
    weathercode := some [1, 2] }

/-- Daily block whose four parallel arrays all have length 1. -/
def okDaily : DailyBlock :=
  { time := some [0], temperature_2m_max := some [20],
    temperature_2m_min := some [10], weathercode := some [3] }

/-- Payload with equal-length parallel arrays. -/
def okPayload : Payload :=
  { current_weather := none, hourly := some okHourly, daily := some okDaily }

/-- Witness for the amended C1: equal-length arrays give a 2-row hourly
series; mismatched arrays make the daily normalizer fail. -/
theorem normalizer_lengths_witness :
    Option.map List.length (hourly_to_df okPayload) = some 2 ∧
    daily_to_df mismatchPayload = none := by
  constructor
  · have h := (((normalizer_lengths okPayload okHourly okDaily).1 rfl rfl).1
      (by decide)).2.2.2.2.2
    simpa using h
  · exact ((normalizer_lengths mismatchPayload mismatchHourly mismatchDaily).2
      rfl rfl).2 (by decide)

/-- Claim C6: the 24-hour chart plots exactly the first at-most-24 rows of
the hourly series whose timestamp is at or after `now` — a subsequence of
the series, each row at or after `now`, at most 24 rows — and when no such
row exists an informational placeholder is shown instead. -/
theorem chart_window_spec :
    ∀ (df : List HourlyRow) (now : Int),
      (next24 df now ≠ [] →
        draw_24h_chart df now = [Ev.chart (chartData (next24 df now))] ∧
        (next24 df now).Sublist df ∧
        (next24 df now).length ≤ 24 ∧
        allAtOrAfter now (next24 df now) = true) ∧
      (next24 df now = [] →
        (draw_24h_chart df now = [Ev.info "No hourly data available."] ∨
         draw_24h_chart df now = [Ev.info "No next-24-hour data available."])) := by
  intro df now
  constructor
  · intro hne
    have hdf : df ≠ [] := by
      intro hd
      subst hd
      simp [next24] at hne
    have h1 : df.isEmpty = false := by
      cases df with
      | nil => exact absurd rfl hdf
      | cons a as => rfl
    have h2 : (next24 df now).isEmpty = false := by
      cases hn : next24 df now with
      | nil => exact absurd hn hne
      | cons a as => rfl
    refine ⟨by simp [draw_24h_chart, h1, h2], ?_, ?_, ?_⟩
    · exact (List.take_sublist _ _).trans (List.filter_sublist df)
    · exact List.length_take_le _ _
    · apply List.all_eq_true.mpr
      intro r hr
      have hrf : r ∈ df.filter (fun r => decide (now ≤ r.datetime)) :=
        List.mem_of_mem_take hr
      exact (List.mem_filter.mp hrf).2
  · intro he
    cases h1 : df.isEmpty with
    | true => exact Or.inl (by simp [draw_24h_chart, h1])
    | false =>
        refine Or.inr ?_
        have h2 : (next24 df now).isEmpty = true := by
          rw [he]; rfl
        simp [draw_24h_chart, h1, h2]

/-- Two sample hourly rows around a render time of 3. -/
def rowPast : HourlyRow :=
  { datetime := 0, temperature_2m := 10, apparent_temperature := 9,
    precipitation := 0, weathercode := 0 }

/-- A row after the sample render time. -/
def rowFuture : HourlyRow :=
  { datetime := 5, temperature_2m := 12, apparent_temperature := 11,
    precipitation := 1, weathercode := 61 }

/-- Witness for C6 on a two-row series with render time 3. -/
theorem chart_window_spec_witness :
    draw_24h_chart [rowPast, rowFuture] 3 =
      [Ev.chart (chartData (next24 [rowPast, rowFuture] 3))] ∧
    (next24 [rowPast, rowFuture] 3).Sublist [rowPast, rowFuture] ∧
    (next24 [rowPast, rowFuture] 3).length ≤ 24 ∧
    allAtOrAfter 3 (next24 [rowPast, rowFuture] 3) = true :=
  (chart_window_spec [rowPast, rowFuture] 3).1 (by decide)

/-- Claim C9: with a password configured and a non-matching passphrase,
the script stops at the gate: the trace is exactly the page title and the
two gate prompts, with no network call and no report content. -/
theorem password_gate_blocks :
    ∀ (env : Env), env.app_password ≠ "" → env.pw ≠ env.app_password →
      app_main env = [Ev.title "🌤️ Weather Report",
        Ev.sidebarMarkdown "App access protected",
        Ev.sidebarWarning "Enter password to continue"] ∧
      noNetworkCalls (app_main env) = true ∧
      noReportContent (app_main env) = true := by
  intro env h1 h2
  have ht : app_main env = [Ev.title "🌤️ Weather Report",
      Ev.sidebarMarkdown "App access protected",
      Ev.sidebarWarning "Enter password to continue"] := by
    simp [app_main, h1, h2]
  refine ⟨ht, ?_, ?_⟩
  · rw [ht]; decide
  · rw [ht]; decide

/-- A baseline environment for witnesses: no password, submitted form. -/
def baseEnv : Env :=
  { app_password := "", pw := "", submit := true, city := "   ",
    units := "metric", tz_choice := "", choice := "",
    geocodeResponse := Except.ok { results := none },
    fetchResponse := Except.error "offline", now := 0 }

/-- Witness for C9: secret "abc", user supplies "xyz". -/
theorem password_gate_blocks_witness :
    app_main { baseEnv with app_password := "abc", pw := "xyz" } =
      [Ev.title "🌤️ Weather Report",
       Ev.sidebarMarkdown "App access protected",
       Ev.sidebarWarning "Enter password to continue"] ∧
    noNetworkCalls (app_main { baseEnv with app_password := "abc", pw := "xyz" }) = true ∧
    noReportContent (app_main { baseEnv with app_password := "abc", pw := "xyz" }) = true :=
  password_gate_blocks _ (by decide) (by decide)

/-- Claim C7: a blank-after-trim city on a submitted form halts the run
with the inline validation error as the last event, with zero network
calls. -/
theorem blank_city_validation :
    ∀ (env : Env), gate_ok env → env.submit = true → stripWS env.city = "" →
      (app_main env).getLast? = some (Ev.error "Please enter a city name.") ∧
      noNetworkCalls (app_main env) = true := by
  intro env hg hs hc
  have hafter : main_after_gate env =
      [Ev.markdown "Enter a city name (e.g., `London, UK`). Open-Meteo is free — no API key needed.",
       Ev.error "Please enter a city name."] := by
    simp [main_after_gate, hs, hc]
  by_cases h0 : env.app_password = ""
  · have ht : app_main env = Ev.title "🌤️ Weather Report" :: main_after_gate env := by
      simp [app_main, h0]
    rw [ht, hafter]
    exact ⟨rfl, rfl⟩
  · have hpw : env.pw = env.app_password := by
      cases hg with
      | inl h => exact absurd h h0
      | inr h => exact h
    have ht : app_main env = Ev.title "🌤️ Weather Report"
        :: Ev.sidebarMarkdown "App access protected" :: main_after_gate env := by
      simp [app_main, h0, hpw]
    rw [ht, hafter]
    exact ⟨rfl, rfl⟩

/-- Witness for C7: submitted form with a whitespace-only city. -/
theorem blank_city_validation_witness :
    (app_main baseEnv).getLast? = some (Ev.error "Please enter a city name.") ∧
    noNetworkCalls (app_main baseEnv) = true :=
  blank_city_validation baseEnv (Or.inl rfl) rfl (by decide)

/-- Claim C4: a geocoding response with zero results makes `geocode_city`
return the empty-result signal `None` (not an error), and the run then
halts with the location-not-found warning as the last event, never
issuing a forecast request. -/
theorem zero_results_halts :
    ∀ (body : GeoBody) (env : Env),
      ((body.results = none ∨ body.results = some []) →
        geocode_city_result body = none) ∧
      (gate_ok env → env.submit = true → stripWS env.city ≠ "" →
        env.geocodeResponse = Except.ok body → geocode_city_result body = none →
        (app_main env).getLast? = some (Ev.warning
          "Location not found. Try adding country or state (e.g., 'Springfield, IL').") ∧
        noFetchCalls (app_main env) = true) := by
  intro body env
  constructor
  · intro h
    cases h with
    | inl h => simp [geocode_city_result, h]
    | inr h => simp [geocode_city_result, h]
  · intro hg hs hc hresp hnone
    have hgeo : main_geocode env = [Ev.callGeocode env.city, Ev.warning
        "Location not found. Try adding country or state (e.g., 'Springfield, IL')."] := by
      simp [main_geocode, hresp, hnone]
    have hafter : main_after_gate env =
        Ev.markdown "Enter a city name (e.g., `London, UK`). Open-Meteo is free — no API key needed."
          :: main_geocode env := by
      simp [main_after_gate, hs, hc]
    by_cases h0 : env.app_password = ""
    · have ht : app_main env = Ev.title "🌤️ Weather Report" :: main_after_gate env := by
        simp [app_main, h0]
      rw [ht, hafter, hgeo]
      exact ⟨rfl, rfl⟩
    · have hpw : env.pw = env.app_password := by
        cases hg with
        | inl h => exact absurd h h0
        | inr h => exact h
      have ht : app_main env = Ev.title "🌤️ Weather Report"
          :: Ev.sidebarMarkdown "App access protected" :: main_after_gate env := by
        simp [app_main, h0, hpw]
      rw [ht, hafter, hgeo]
      exact ⟨rfl, rfl⟩

/-- Environment searching for a city whose geocoding returns zero hits. -/
def notFoundEnv : Env :=
  { app_password := "", pw := "", submit := true, city := "Atlantis",
    units := "metric", tz_choice := "", choice := "",
    geocodeResponse := Except.ok { results := some [] },
    fetchResponse := Except.error "offline", now := 0 }

/-- Witness for C4: searching for a place with an empty results array. -/
theorem zero_results_halts_witness :
    (app_main notFoundEnv).getLast? =
      some (Ev.warning
        "Location not found. Try adding country or state (e.g., 'Springfield, IL').") ∧
    noFetchCalls (app_main notFoundEnv) = true :=
  (zero_results_halts { results := some [] } notFoundEnv).2
    (Or.inl rfl) rfl (by decide) rfl rfl

/-- Claim C8: with exactly one geocoding result the selection step picks
it with no selectbox interaction; with several, the selectbox presents
the `build_option_label` of each candidate — `name, admin1 country
(lat,lon)` with coordinates to 3 decimals — and the selected result is
the candidate whose label the user chose. -/
theorem selection_behavior :
    ∀ (ms : List GeocodeResult) (choice : String),
      (∀ m, ms = [m] → pick_match ms choice = ([], some m)) ∧
      (1 < ms.length →
        (pick_match ms choice).1 =
          [Ev.selectbox "Multiple matches found — choose one" (ms.map build_option_label)] ∧
        (choice ∈ ms.map build_option_label →
          Option.map build_option_label (pick_match ms choice).2 = some choice ∧
          selectedIn (pick_match ms choice).2 ms)) := by
  intro ms choice
  constructor
  · intro m hm
    subst hm
    simp [pick_match]
  · intro hlen
    have hif : pick_match ms choice =
        ([Ev.selectbox "Multiple matches found — choose one" (ms.map build_option_label)],
          match list_index (ms.map build_option_label) choice with
          | some idx => ms[idx]?
          | none => none) := by
      simp [pick_match, hlen]
    constructor
    · rw [hif]
    · intro hc
      obtain ⟨i, m, hfind, hget, hlab, hm⟩ := list_index_spec ms choice hc
      rw [hif]
      simp only [hfind, hget]
      exact ⟨by simp [hlab], by simp [selectedIn, hm]⟩

/-- A second sample hit with the same city name in another admin region. -/
def sampleHit2 : GeocodeResult :=
  { name := "London", admin1 := some "Ontario", country := "Canada",
    latitude := 42983 / 1000, longitude := -81233 / 1000 }

/-- Witness for C8: a singleton auto-selects; with two candidates the
selectbox lists both labels and choosing the second label selects the
second candidate. -/
theorem selection_behavior_witness :
    pick_match [sampleHit] "anything" = ([], some sampleHit) ∧
    (pick_match [sampleHit, sampleHit2] (build_option_label sampleHit2)).1 =
      [Ev.selectbox "Multiple matches found — choose one"
        [build_option_label sampleHit, build_option_label sampleHit2]] ∧
    Option.map build_option_label
      (pick_match [sampleHit, sampleHit2] (build_option_label sampleHit2)).2 =
      some (build_option_label sampleHit2) ∧
    selectedIn (pick_match [sampleHit, sampleHit2] (build_option_label sampleHit2)).2
      [sampleHit, sampleHit2] := by
  refine ⟨(selection_behavior [sampleHit] "anything").1 sampleHit rfl, ?_, ?_, ?_⟩
  · exact ((selection_behavior [sampleHit, sampleHit2] (build_option_label sampleHit2)).2
      (by decide)).1
  · exact (((selection_behavior [sampleHit, sampleHit2] (build_option_label sampleHit2)).2
      (by decide)).2 (by simp)).1
  · exact (((selection_behavior [sampleHit, sampleHit2] (build_option_label sampleHit2)).2
      (by decide)).2 (by simp)).2
